import Mathlib

/-!
Verification of the WriteBoost text-pipeline against its specification.

The definitions below are a shallow embedding of the Python source under
`src/Windows/`:

* `TextOperationsManager.replace_text`      → `replace_text`
* `TextOperationsManager.get_selected_text` → `get_selected_text`
* `TextOperationsManager.process_option_thread` → `process_option_thread`
* `WritingToolApp.check_trigger_spam`       → `check_trigger_spam`
* `ConversationManager.process_followup_question` → `process_followup_question`
* `ChatMessageManager.add_user_message` / `add_assistant_message`
* `aiprovider.GeminiProvider._get_response_async` success path and
  `GeminiProvider.cancel` → `deliverResponse` / `cancel`

Side effects (clipboard writes, key-chord synthesis, Qt signal emissions,
provider calls) are made explicit as state fields and event lists.
-/

set_option maxRecDepth 8000

namespace WriteBoost

/-- ASCII fragment of Python `str.isspace` / `str.split()` whitespace:
space, tab, newline, carriage return, vertical tab, form feed. -/
def isPySpace (c : Char) : Bool :=
  c == ' ' || c == '\t' || c == '\n' || c == '\r' || c == '\x0b' || c == '\x0c'

/-- Python `s.strip()`: remove leading and trailing whitespace. -/
def pyStrip (s : String) : String :=
  String.mk (((s.toList.dropWhile fun c => isPySpace c).reverse.dropWhile
    fun c => isPySpace c).reverse)

/-- Python `"".join(s.split())`: remove every whitespace character. -/
def removeWhitespace (s : String) : String :=
  String.mk (s.toList.filter fun c => !isPySpace c)

/-- Python `s.rstrip("\n")`: remove trailing newline characters only. -/
def pyRstripNewlines (s : String) : String :=
  String.mk ((s.toList.reverse.dropWhile fun c => c == '\n').reverse)

/-- The incompatible-text sentinel, `TextOperationsManager.replace_text` line 200. -/
def errorMessage : String := "ERROR_TEXT_INCOMPATIBLE_WITH_REQUEST"

/-- The value passed to `replace_text`.  Python is dynamically typed: the slot
can receive `None`, a string, or any non-string value (the source even calls
`self.app.replace_text(True)` in one place), so the embedding keeps all three
shapes. -/
inductive PyVal where
  | pynone
  | str (s : String)
  | nonString
deriving DecidableEq

/-- Mutable state touched by `TextOperationsManager.replace_text`:
the output accumulator `self.output_queue`, whether
`hasattr(self.app, "current_response_window")` holds, and the system
clipboard content as seen by `pyperclip`. -/
structure TextOpsState where
  output_queue : String
  hasResponseWindow : Bool
  clipboard : String
deriving DecidableEq

/-- Observable effects of one `replace_text` call:
`message t b` is `show_message_signal.emit(t, b)`,
`paste p` is a synthesized Ctrl+V chord consuming clipboard payload `p`,
`setWindowText t` is `current_response_window.set_text(t)`. -/
inductive RTEvent where
  | message (title body : String)
  | paste (payload : String)
  | setWindowText (text : String)
deriving DecidableEq

/-- Shallow embedding of `TextOperationsManager.replace_text`
(`src/Windows/TextOperationsManager.py` lines 196-249).

Control flow mirrors the source: the guard `new_text and
isinstance(new_text, str)` admits only non-empty strings; the accumulated
queue, stripped, is compared with the sentinel; then, while the stripped
queue is no longer than the sentinel, the whitespace-free queue is compared
with the corresponding slice of the whitespace-free sentinel and delivery is
withheld on a match; otherwise the text is delivered either to the response
window or by a clipboard save / copy / Ctrl+V / restore sequence, and the
queue is cleared only on the clipboard path. -/
def replace_text (st : TextOpsState) (new_text : PyVal) : TextOpsState × List RTEvent :=
  match new_text with
  | .str s =>
    if s ≠ "" then
      let q := st.output_queue ++ s
      let current_output := pyStrip q
      if current_output = errorMessage then
        ({ st with output_queue := q },
         [.message "Error" "The text is incompatible with the requested change."])
      else if current_output.length ≤ errorMessage.length ∧
          removeWhitespace current_output =
            (removeWhitespace errorMessage).take (removeWhitespace current_output).length then
        ({ st with output_queue := q }, [])
      else if st.hasResponseWindow then
        ({ st with output_queue := q }, [.setWindowText (pyRstripNewlines q)])
      else
        -- clipboard_backup = paste(); copy(cleaned); Ctrl+V; copy(clipboard_backup)
        let cleaned_text := pyRstripNewlines q
        ({ st with output_queue := "", clipboard := st.clipboard },
         [.paste cleaned_text])
    else (st, [])
  | _ => (st, [])

/-! ### Selection capture engine

`TextOperationsManager.get_selected_text` (lines 25-81).  The foreign
application is modelled by `env : Nat → String`, giving the clipboard
content observed by `pyperclip.paste()` on attempt `n`, after the code has
cleared the clipboard and synthesized a Ctrl+C chord (`env n = ""` means the
chord populated nothing, leaving the cleared clipboard in place).  The
progressive `time.sleep` delays carry no observable state and are omitted.
The result records the returned string, the final clipboard content, and the
number of copy chords synthesized. -/

/-- The `for attempt in range(max_retries)` loop of `get_selected_text`,
as recursion on the number of remaining attempts.  Each iteration clears the
clipboard, synthesizes Ctrl+C (one chord), reads `env attempt`, and applies
the two success tests of the source; every return path first executes
`pyperclip.copy(clipboard_backup)`. -/
def captureAttempts (env : Nat → String) (clipboard_backup : String) :
    Nat → Nat → Nat → String × String × Nat
  | _, 0, chords => ("", clipboard_backup, chords)
  | attempt, remaining + 1, chords =>
    let selected_text := env attempt
    if selected_text ≠ "" ∧ pyStrip selected_text ≠ "" then
      (selected_text, clipboard_backup, chords + 1)
    else if selected_text ≠ clipboard_backup then
      (selected_text, clipboard_backup, chords + 1)
    else
      captureAttempts env clipboard_backup (attempt + 1) remaining (chords + 1)

/-- Shallow embedding of `TextOperationsManager.get_selected_text`:
back up the clipboard (`clipboard0`), run the retry loop, and return
`(returned text, final clipboard, chord count)`. -/
def get_selected_text (env : Nat → String) (max_retries : Nat) (clipboard0 : String) :
    String × String × Nat :=
  captureAttempts env clipboard0 0 max_retries 0

/-- A whole sequence of capture calls threaded through the clipboard:
each list entry is the environment and retry count of one call. -/
def runCaptures (calls : List ((Nat → String) × Nat)) (clipboard0 : String) : String :=
  calls.foldl (fun clip call => (get_selected_text call.1 call.2 clip).2.1) clipboard0

/-! ### Spam guard

`WritingToolApp.check_trigger_spam` (lines 103-117) with
`TRIGGER_WINDOW = 1.5` and `MAX_TRIGGERS = 3`.  Timestamps are rationals. -/

def TRIGGER_WINDOW : ℚ := 3 / 2

def MAX_TRIGGERS : Nat := 3

/-- Shallow embedding of `WritingToolApp.check_trigger_spam`: append the
current time, keep timestamps with `current_time - t <= TRIGGER_WINDOW`,
return the retained list and whether its length reaches `MAX_TRIGGERS`. -/
def check_trigger_spam (recent_triggers : List ℚ) (current_time : ℚ) :
    List ℚ × Bool :=
  let appended := recent_triggers ++ [current_time]
  let retained := appended.filter fun t => current_time - t ≤ TRIGGER_WINDOW
  (retained, MAX_TRIGGERS ≤ retained.length)

/-- Run the spam guard over a list of successive trigger times, starting from
the empty `recent_triggers` list, collecting the boolean result of each call. -/
def runSpamGuard (times : List ℚ) : List Bool :=
  (times.foldl
    (fun acc now =>
      let r := check_trigger_spam acc.1 now
      (r.1, acc.2 ++ [r.2]))
    (([] : List ℚ), ([] : List Bool))).2

/-! ### Request dispatcher

`TextOperationsManager.process_option_thread` (lines 122-186), modelled up
to and including the provider call it issues; the subsequent routing of the
returned response (window `set_text`, chat-history update) follows the call
and does not affect whether a call or a rejection message is produced. -/

/-- One entry of `self.app.options`: the prompt prefix string, the system
instruction, and the `open_in_window` display flag. -/
structure OptionCfg where
  prefixText : String
  instruction : String
  open_in_window : Bool
deriving DecidableEq

/-- Python `f"...{x}..."` interpolation of a value that may be `None`. -/
def pyFormatOpt : Option String → String
  | Option.none => "None"
  | Option.some s => s

/-- Observable effects of the dispatch phase: a user-facing message box
(`show_message_signal.emit`) or a call to
`current_provider.get_response(system_instruction, prompt,
return_response)`. The prompt is `Option String` because Python can pass
`custom_change = None` through unchanged. -/
inductive DispatchEvent where
  | message (title body : String)
  | providerCall (return_response : Bool) (system_instruction : String)
      (prompt : Option String)
deriving DecidableEq

def DispatchEvent.isProviderCall : DispatchEvent → Bool
  | .providerCall _ _ _ => true
  | _ => false

/-- Default chat system instruction used by `getattr(...,
"chat_system_instruction", default)` in the source (abbreviated here to a
stable tag; its exact wording plays no role in any claim). -/
def defaultChatInstruction : String := "chat_system_instruction_default"

/-- Shallow embedding of `TextOperationsManager.process_option_thread`:
given the options registry `opts`, the chat system instruction of the provider,
the chosen option name, the captured text, the optional custom instruction
and the incoming `output_queue` value, return the resulting `output_queue`
and the emitted events.  The source sets `self.output_queue = ""` on every
path that reaches the provider call; the early rejection path leaves it
untouched. -/
def process_option_thread (opts : String → OptionCfg) (chatInstruction : String)
    (option selected_text : String) (custom_change : Option String)
    (q0 : String) : String × List DispatchEvent :=
  if pyStrip selected_text = "" then
    if option = "Custom" then
      -- prompt = custom_change; system_instruction = chat instruction;
      -- output_queue = ""; window branch taken since selected text is empty
      ("", [.providerCall true chatInstruction custom_change])
    else
      (q0, [.message "Error" "Please select text to use this option."])
  else
    let selected_prompt := opts option
    let prompt : String :=
      if option = "Custom" then
        selected_prompt.prefixText ++ "Described change: " ++
          pyFormatOpt custom_change ++ "\n\nText: " ++ selected_text
      else
        selected_prompt.prefixText ++ selected_text
    if selected_prompt.open_in_window then
      ("", [.providerCall true selected_prompt.instruction (Option.some prompt)])
    else
      ("", [.providerCall false selected_prompt.instruction (Option.some prompt)])

/-! ### Conversation state and follow-up questions

`ChatMessageManager` (`src/Windows/ui/ChatMessageManager.py`) and
`ConversationManager.process_followup_question`
(`src/Windows/ConversationManager.py` lines 17-89). -/

/-- One role-tagged chat turn, `{"role": ..., "content": ...}`. -/
structure ChatMsg where
  role : String
  content : String
deriving DecidableEq

/-- `ChatMessageManager.add_user_message`. -/
def add_user_message (chat_history : List ChatMsg) (message : String) :
    List ChatMsg :=
  chat_history ++ [⟨"user", message⟩]

/-- `ChatMessageManager.add_assistant_message`. -/
def add_assistant_message (chat_history : List ChatMsg) (message : String) :
    List ChatMsg :=
  chat_history ++ [⟨"assistant", message⟩]

/-- The rendering of one prior turn inside the follow-up prompt:
`"User: {content}\n\n"` for role `"user"`, `"Assistant: {content}\n\n"`
otherwise. -/
def renderTurn (m : ChatMsg) : String :=
  if m.role = "user" then "User: " ++ m.content ++ "\n\n"
  else "Assistant: " ++ m.content ++ "\n\n"

/-- The prompt-assembly section of `process_followup_question` (lines
46-56): start from the system instruction, render `history[:-1]` only when
`len(history) > 1`, then append the new question and the trailing
`"Assistant:"` cue. -/
def assembleConversationText (system_instruction : String)
    (history : List ChatMsg) (question : String) : String :=
  let base := system_instruction ++ "\n\n"
  let base :=
    if 1 < history.length then
      history.dropLast.foldl (fun acc m => acc ++ renderTurn m) base
    else base
  base ++ "User: " ++ question ++ "\n\nAssistant:"

/-- The full prompt produced by a follow-up call: the caller appends the
question to the history with `add_user_message` first, then the updated
history is read for assembly. -/
def followupPrompt (system_instruction : String) (chat_history : List ChatMsg)
    (question : String) : String :=
  assembleConversationText system_instruction
    (add_user_message chat_history question) question

/-- Does the second character list start with the first? -/
def startsWithChars : List Char → List Char → Bool
  | [], _ => true
  | _ :: _, [] => false
  | a :: as, b :: bs => a == b && startsWithChars as bs

/-- Does the character list contain the first list as a contiguous
sub-sequence? -/
def hasSubChars (needle : List Char) : List Char → Bool
  | [] => needle.isEmpty
  | c :: cs => startsWithChars needle (c :: cs) || hasSubChars needle cs

/-- Python `needle in hay` substring test. -/
def pyContains (hay needle : String) : Bool :=
  hasSubChars needle.toList hay.toList

/-- Observable effects of one follow-up call: the text emitted on
`followup_response_signal` and message boxes on `show_message_signal`. -/
inductive FollowupEvent where
  | response (text : String)
  | message (title body : String)
deriving DecidableEq

def rateLimitBody : String :=
  "Whoops! You\x27ve hit the per-minute rate limit of the Gemini API. Please try again in a few moments.\n\nIf this happens often, simply switch to a Gemini model with a higher usage limit in Settings."

def followupErrorReply : String :=
  "Sorry, an error occurred while processing your question."

/-- Shallow embedding of the worker thread of
`ConversationManager.process_followup_question`: append the question as a USER turn, assemble the prompt,
call the provider (modelled as `provider : String → Except String String`,
where `Except.error e` is a raised exception with message `e`).  On success
the response is appended as an ASSISTANT turn and emitted; on exception the
error branch emits a message box and the fixed apology reply, and the chat
history is left as it stood after `add_user_message`. -/
def process_followup_question (system_instruction : String)
    (chat_history : List ChatMsg) (question : String)
    (provider : String → Except String String) :
    List ChatMsg × List FollowupEvent :=
  let history1 := add_user_message chat_history question
  let conversation_text :=
    assembleConversationText system_instruction history1 question
  match provider conversation_text with
  | .ok response_text =>
    (add_assistant_message history1 response_text,
     [.response response_text])
  | .error e =>
    if pyContains e "Resource has been exhausted" then
      (history1, [.message "Error - Rate Limit Hit" rateLimitBody,
                  .response followupErrorReply])
    else
      (history1, [.message "Error" ("An error occurred: " ++ e),
                  .response followupErrorReply])

/-- Shallow embedding of the chat-history effect of
`ResponseWindow.handle_followup_response`
(`src/Windows/ui/ResponseWindow.py` lines 462-482), the slot connected to
`followup_response_signal` (line 42): when the received text is non-empty
and the history is non-empty with its last turn not an assistant turn, the
received text is appended to the same `message_manager` history as an
ASSISTANT turn.  The display-only actions (chat-area rendering, zoom,
animation, focus) carry no history state and are omitted. -/
def handle_followup_response (chat_history : List ChatMsg)
    (response_text : String) : List ChatMsg :=
  if response_text ≠ "" then
    match chat_history.getLast? with
    | Option.some lastMsg =>
      if lastMsg.role ≠ "assistant" then
        add_assistant_message chat_history response_text
      else chat_history
    | Option.none => chat_history
  else chat_history

/-- One complete follow-up round trip: the worker thread of
`process_followup_question` runs, then every text it emitted on
`followup_response_signal` is delivered to the connected
`ResponseWindow.handle_followup_response` slot, which may append it to the
same chat history; `show_message_signal` emissions go to a message box and
leave the history untouched. -/
def process_followup_round (system_instruction : String)
    (chat_history : List ChatMsg) (question : String)
    (provider : String → Except String String) :
    List ChatMsg × List FollowupEvent :=
  let r := process_followup_question system_instruction chat_history question
    provider
  (r.2.foldl
    (fun h ev =>
      match ev with
      | FollowupEvent.response t => handle_followup_response h t
      | FollowupEvent.message _ _ => h)
    r.1,
   r.2)

/-! ### Provider cancellation and delivery

`aiprovider.GeminiProvider` (the implementation imported by
`WritingToolApp`): `cancel` (line 506) and the HTTP-200 success path of
`_get_response_async` (lines 420-429). -/

/-- The mutable cancellation state of the provider: `self.close_requested`. -/
structure GeminiState where
  close_requested : Bool
deriving DecidableEq

/-- `GeminiProvider.cancel`: set the cancel flag. -/
def cancel (s : GeminiState) : GeminiState :=
  { s with close_requested := true }

/-- Delivery event: `self.app.output_ready_signal.emit(response_text)`,
the hand-off of provider output toward the result-routing `replace_text`
path. -/
inductive ProviderEvent where
  | outputReady (text : String)
deriving DecidableEq

/-- Shallow embedding of the success path of
`GeminiProvider._get_response_async` after an HTTP 200 response: when
`return_response` is false and no response window exists, the response text
is emitted on `output_ready_signal`; otherwise it is returned to the
caller.  The `finally` clause sets `close_requested = False`.  The source
contains no read of `close_requested` anywhere on this path (nor anywhere
else in the repository): the flag written by `cancel` is never consulted
before delivering. -/
def deliverResponse (s : GeminiState) (return_response has_response_window : Bool)
    (response_text : String) : GeminiState × List ProviderEvent :=
  if !return_response && !has_response_window then
    ({ s with close_requested := false }, [.outputReady response_text])
  else
    ({ s with close_requested := false }, [])

/-! ### Helper lemmas -/

/-- Every return path of the capture loop restores the clipboard backup. -/
lemma captureAttempts_clipboard (env : Nat → String) (b : String) :
    ∀ (remaining attempt chords : Nat),
      (captureAttempts env b attempt remaining chords).2.1 = b := by
  intro remaining
  induction remaining with
  | zero => intro attempt chords; rfl
  | succ n ih =>
    intro attempt chords
    simp only [captureAttempts]
    split
    · rfl
    · split
      · rfl
      · exact ih (attempt + 1) (chords + 1)

/-- Folding string append over a list factors the accumulator out. -/
lemma foldl_append_str (l : List String) :
    ∀ b : String,
      l.foldl (fun r s => r ++ s) b = b ++ l.foldl (fun r s => r ++ s) "" := by
  induction l with
  | nil => intro b; simp [String.append_empty]
  | cons x l ih =>
    intro b
    simp only [List.foldl_cons]
    rw [ih (b ++ x), ih ("" ++ x)]
    simp [String.empty_append, String.append_assoc]

/-- Folding the turn renderer over a history prepends the rendered turns to
the accumulator. -/
lemma foldl_renderTurn (l : List ChatMsg) :
    ∀ b : String,
      l.foldl (fun acc m => acc ++ renderTurn m) b =
        b ++ String.join (l.map renderTurn) := by
  induction l with
  | nil => intro b; simp [String.append_empty, String.join]
  | cons m l ih =>
    intro b
    simp only [List.foldl_cons, List.map_cons, String.join, List.foldl_cons]
    rw [ih, foldl_append_str]
    simp [String.join, String.empty_append, String.append_assoc]

/-- Delivering a non-empty reply to the response-window slot when the
history ends with a USER turn appends the reply as an ASSISTANT turn. -/
lemma handle_followup_after_user (h : List ChatMsg) (q t : String)
    (ht : t ≠ "") :
    handle_followup_response (h ++ [⟨"user", q⟩]) t =
      h ++ [⟨"user", q⟩, ⟨"assistant", t⟩] := by
  simp [handle_followup_response, ht, List.getLast?_concat,
    add_assistant_message]

/-! ### Claims -/

/-- Claim C1 (code bug evidence).  The claim states that a background task
whose provider call resolves after `cancel()` never delivers its output,
because the task checks the cancel flag immediately before delivering.  The
code does not: the success path of `_get_response_async` never reads
`close_requested`.  First conjunct: starting from a cancelled provider
state, a resolving REPLACE-mode call (`return_response = false`, no
response window) still emits its output toward `replace_text`.  Second
conjunct: the emitted events never depend on the provider state at all —
the cancel flag is write-only. -/
theorem C1_cancelled_output_still_delivered :
    (deliverResponse (cancel ⟨false⟩) false false "stale output").2 =
      [ProviderEvent.outputReady "stale output"] ∧
    (∀ (s t : GeminiState) (r w : Bool) (x : String),
      (deliverResponse s r w x).2 = (deliverResponse t r w x).2) := by
  refine ⟨rfl, fun s t r w x => ?_⟩
  cases r <;> cases w <;> rfl

/-- Claim C2.  Clipboard neutrality of the selection-capture operation: for
every environment, retry budget and initial clipboard content, a single
`get_selected_text` call leaves the clipboard equal to its initial content,
and so does any sequence of calls. -/
theorem C2_clipboard_neutrality :
    (∀ (env : Nat → String) (max_retries : Nat) (clipboard0 : String),
      (get_selected_text env max_retries clipboard0).2.1 = clipboard0) ∧
    (∀ (calls : List ((Nat → String) × Nat)) (clipboard0 : String),
      runCaptures calls clipboard0 = clipboard0) := by
  have single : ∀ (env : Nat → String) (n : Nat) (c : String),
      (get_selected_text env n c).2.1 = c := fun env n c =>
    captureAttempts_clipboard env c n 0 0
  refine ⟨single, fun calls => ?_⟩
  induction calls with
  | nil => intro c; rfl
  | cons call rest ih =>
    intro c
    simp only [runCaptures, List.foldl_cons] at ih ⊢
    rw [single call.1 call.2 c]
    exact ih c

/-- Claim C3.  Sentinel withholding on the REPLACE path (no response
window, fresh accumulator): the strict sentinel fragment
`"ERROR_TEXT_INCOMPATIBLE"` produces no paste and no message; the complete
sentinel produces exactly the incompatible-text message and no paste;
`"Hello world"` produces exactly one paste whose clipboard payload is
`"Hello world"`. -/
theorem C3_sentinel_withholding (clipboard0 : String) :
    (replace_text ⟨"", false, clipboard0⟩ (.str "ERROR_TEXT_INCOMPATIBLE")).2 =
        [] ∧
    (replace_text ⟨"", false, clipboard0⟩ (.str errorMessage)).2 =
        [.message "Error" "The text is incompatible with the requested change."] ∧
    (replace_text ⟨"", false, clipboard0⟩ (.str "Hello world")).2 =
        [.paste "Hello world"] :=
  ⟨rfl, rfl, rfl⟩

/-- Claim C4, counterexample.  With a non-empty pre-capture clipboard
(`"old"`), a first read that comes back empty and a second that would come
back `"new"`, `get_selected_text(max_retries=2)` does not return the
non-empty value: the empty first read already differs from the backup, so
the call returns `""` after a single copy chord instead of attempting a
second capture. -/
theorem C4_counterexample :
    (get_selected_text (fun n => if n = 0 then "" else "new") 2 "old").1 = "" ∧
    (get_selected_text (fun n => if n = 0 then "" else "new") 2 "old").1 ≠
      "new" ∧
    (get_selected_text (fun n => if n = 0 then "" else "new") 2 "old").2.2 = 1 := by
  decide

/-- Claim C4 as amended.  When the pre-capture clipboard backup is empty,
an empty first read equals the backup, so the loop proceeds to a second
attempt and returns the non-empty second read after exactly 2 copy chords;
when the backup is non-empty, the empty first read differs from the backup
and is returned immediately as an (empty) successful capture after exactly
1 copy chord. -/
theorem C4_amended (v b : String) (hv : v ≠ "") (hb : b ≠ "") :
    get_selected_text (fun n => if n = 0 then "" else v) 2 "" = (v, "", 2) ∧
    get_selected_text (fun n => if n = 0 then "" else v) 2 b = ("", b, 1) := by
  constructor
  · by_cases hstrip : pyStrip v = "" <;>
      simp [get_selected_text, captureAttempts, hv, hstrip]
  · simp [get_selected_text, captureAttempts, Ne.symm hb]

/-- Witness for the amended C4 at `v = "new"`, `b = "old"`. -/
theorem C4_amended_witness :
    get_selected_text (fun n => if n = 0 then "" else "new") 2 "" =
        ("new", "", 2) ∧
    get_selected_text (fun n => if n = 0 then "" else "new") 2 "old" =
        ("", "old", 1) :=
  C4_amended "new" "old" (by decide) (by decide)

/-- Claim C5, counterexample.  With empty captured text, option `"Custom"`
and no custom instruction (`None`), `process_option_thread` surfaces no
user-facing message and still makes a provider call (with the `None`
instruction as the prompt): the claimed rejection does not happen in this
function. -/
theorem C5_counterexample :
    (process_option_thread (fun _ => ⟨"", "", false⟩) defaultChatInstruction
        "Custom" "" Option.none "stale").2 =
      [DispatchEvent.providerCall true defaultChatInstruction Option.none] := by
  decide

/-- Claim C5 as amended.  With empty (or whitespace-only) captured text:
a non-"Custom" operation surfaces exactly the select-text error message and
makes no provider call; the "Custom" operation makes a provider call with
the custom instruction as the prompt regardless of whether that instruction
is present — the empty-instruction guard lives in the popup UI (which only
dispatches non-empty instructions), not in `process_option_thread`. -/
theorem C5_amended (opts : String → OptionCfg) (chatInstruction : String)
    (option selected_text : String) (custom_change : Option String)
    (q0 : String) (hempty : pyStrip selected_text = "") :
    (option ≠ "Custom" →
      (process_option_thread opts chatInstruction option selected_text
          custom_change q0).2 =
        [DispatchEvent.message "Error" "Please select text to use this option."]) ∧
    (option = "Custom" →
      (process_option_thread opts chatInstruction option selected_text
          custom_change q0).2 =
        [DispatchEvent.providerCall true chatInstruction custom_change]) := by
  constructor <;> intro h <;> simp [process_option_thread, hempty, h]

/-- Witness for the amended C5: a non-Custom rejection and a Custom
dispatch, both with empty captured text. -/
theorem C5_amended_witness :
    (process_option_thread (fun _ => ⟨"", "", false⟩) defaultChatInstruction
        "Summary" "" Option.none "q").2 =
      [DispatchEvent.message "Error" "Please select text to use this option."] ∧
    (process_option_thread (fun _ => ⟨"", "", false⟩) defaultChatInstruction
        "Custom" "" (Option.some "make it rhyme") "q").2 =
      [DispatchEvent.providerCall true defaultChatInstruction
        (Option.some "make it rhyme")] :=
  ⟨(C5_amended (fun _ => ⟨"", "", false⟩) defaultChatInstruction "Summary" ""
      Option.none "q" (by decide)).1 (by decide),
   (C5_amended (fun _ => ⟨"", "", false⟩) defaultChatInstruction "Custom" ""
      (Option.some "make it rhyme") "q" (by decide)).2 rfl⟩

/-- Claim C6.  The spam guard appends the current timestamp, retains only
timestamps within the 1.5-second window, and reports spam iff at least
`MAX_TRIGGERS = 3` remain; concretely, trigger times `[0, 0.5, 1]` yield
`False, False, True` and `[0, 2, 2.5]` yield `False` on every call. -/
theorem C6_spam_guard :
    (∀ (recent : List ℚ) (now : ℚ),
      (check_trigger_spam recent now).1 =
        (recent ++ [now]).filter (fun t => now - t ≤ TRIGGER_WINDOW) ∧
      ((check_trigger_spam recent now).2 = true ↔
        MAX_TRIGGERS ≤
          ((recent ++ [now]).filter
            (fun t => now - t ≤ TRIGGER_WINDOW)).length)) ∧
    runSpamGuard [0, 1 / 2, 1] = [false, false, true] ∧
    runSpamGuard [0, 2, 5 / 2] = [false, false, false] := by
  refine ⟨fun recent now => ⟨rfl, ?_⟩, ?_, ?_⟩
  · simp [check_trigger_spam]
  · norm_num [runSpamGuard, check_trigger_spam, TRIGGER_WINDOW, MAX_TRIGGERS,
      List.filter]
  · norm_num [runSpamGuard, check_trigger_spam, TRIGGER_WINDOW, MAX_TRIGGERS,
      List.filter]

/-- Claim C7, counterexample.  Feeding `replace_text` the complete sentinel
on the REPLACE path does not leave the accumulator empty: the sentinel
branch returns before any code that clears `output_queue`. -/
theorem C7_counterexample :
    (replace_text ⟨"", false, "orig"⟩ (.str errorMessage)).1.output_queue ≠
      "" := by
  decide

/-- Claim C7 as amended.  The output accumulator is cleared to the empty
string at the start of every new request (every `process_option_thread` run
that reaches a provider call) and after every successful paste-completion
on the REPLACE path; a sentinel-triggered completion, however, leaves the
sentinel text in the accumulator (it is only reset when the next request
starts). -/
theorem C7_amended :
    (∀ (opts : String → OptionCfg) (chatInstruction option selected_text : String)
        (custom_change : Option String) (q0 : String),
      pyStrip selected_text ≠ "" ∨ option = "Custom" →
      (process_option_thread opts chatInstruction option selected_text
          custom_change q0).1 = "") ∧
    (∀ (st : TextOpsState) (s p : String),
      (replace_text st (.str s)).2 = [RTEvent.paste p] →
      (replace_text st (.str s)).1.output_queue = "") ∧
    (∀ c : String,
      (replace_text ⟨"", false, c⟩ (.str errorMessage)).1.output_queue =
        errorMessage) := by
  refine ⟨?_, ?_, fun c => rfl⟩
  · rintro opts ci option sel cc q0 (h | h)
    · simp only [process_option_thread, if_neg h]
      split <;> rfl
    · by_cases hs : pyStrip sel = ""
      · simp [process_option_thread, hs, h]
      · simp only [process_option_thread, if_neg hs]
        split <;> rfl
  · intro st s p h
    simp only [replace_text] at h ⊢
    split_ifs at h ⊢ <;> simp_all

/-- Witness for the amended C7: a dispatched request clears the queue, a
completed paste clears it, a sentinel completion leaves the sentinel. -/
theorem C7_amended_witness :
    (process_option_thread (fun _ => ⟨"pfx", "sys", false⟩)
        defaultChatInstruction "Proofread" "text" Option.none "junk").1 = "" ∧
    (replace_text ⟨"", false, "orig"⟩
        (.str "Hello world")).1.output_queue = "" ∧
    (replace_text ⟨"", false, "before"⟩
        (.str errorMessage)).1.output_queue = errorMessage :=
  ⟨C7_amended.1 (fun _ => ⟨"pfx", "sys", false⟩) defaultChatInstruction
      "Proofread" "text" Option.none "junk" (Or.inl (by decide)),
   C7_amended.2.1 ⟨"", false, "orig"⟩ "Hello world" "Hello world" (by decide),
   C7_amended.2.2 "before"⟩

/-- Claim C8.  Follow-up prompt assembly: the new question is appended to
the history before assembly reads it, and the assembled prompt equals the
system header, then every turn of the prior history rendered in order with
its role label, then the new question as the final `"User:"` line followed
by the `"Assistant:"` cue — the appended copy of the question is excluded
from the prior block, so it appears exactly once. -/
theorem C8_followup_prompt_assembly (system_instruction question : String)
    (history : List ChatMsg) :
    followupPrompt system_instruction history question =
      system_instruction ++ "\n\n" ++ String.join (history.map renderTurn) ++
        "User: " ++ question ++ "\n\nAssistant:" := by
  by_cases h : history = []
  · subst h
    simp [followupPrompt, assembleConversationText, add_user_message,
      String.join, String.append_empty]
  · have hlen : 1 < (history ++ [(⟨"user", question⟩ : ChatMsg)]).length := by
      cases history with
      | nil => exact absurd rfl h
      | cons a l => simp
    simp only [followupPrompt, assembleConversationText, add_user_message,
      if_pos hlen]
    rw [List.dropLast_concat, foldl_renderTurn]

/-- Claim C9.  `replace_text` is a no-op for `None`, the empty string, and
non-string values: state (accumulator and clipboard) unchanged, no events
(no paste, no message). -/
theorem C9_replace_text_noop (st : TextOpsState) :
    replace_text st PyVal.pynone = (st, []) ∧
    replace_text st (PyVal.str "") = (st, []) ∧
    replace_text st PyVal.nonString = (st, []) :=
  ⟨rfl, by simp [replace_text], rfl⟩

/-- Claim C10, counterexample.  One failed follow-up on an empty history:
the worker thread appends the USER turn and emits the apology, and the
connected `handle_followup_response` slot then appends the apology as an
ASSISTANT turn to the same history, so the resulting history ends with the
apology ASSISTANT turn, not with a USER turn as the claim states. -/
theorem C10_counterexample :
    (process_followup_round "" [] "hi" (fun _ => Except.error "boom")).1 =
      [⟨"user", "hi"⟩, ⟨"assistant", followupErrorReply⟩] ∧
    ((process_followup_round "" [] "hi"
        (fun _ => Except.error "boom")).1.getLast?).map ChatMsg.role ≠
      Option.some "user" := by
  constructor <;> decide

/-- Claim C10 as amended.  If the provider call inside
`process_followup_question` raises, the just-appended USER turn remains in
the history and the worker thread itself appends no ASSISTANT turn,
emitting the apology reply on `followup_response_signal`; that signal,
however, is received by the connected `ResponseWindow.handle_followup_response`
slot, which appends the apology to the same history as an ASSISTANT turn
(the history then ends with a USER turn).  So after a failed follow-up the
history ends with the apology ASSISTANT turn, and repeated failures
produce alternating USER/apology turns, never consecutive USER turns. -/
theorem C10_amended (system_instruction q1 q2 : String)
    (history : List ChatMsg) (provider : String → Except String String)
    (hfail : ∀ p, ∃ e, provider p = Except.error e) :
    (process_followup_question system_instruction history q1 provider).1 =
        history ++ [⟨"user", q1⟩] ∧
    FollowupEvent.response followupErrorReply ∈
        (process_followup_question system_instruction history q1 provider).2 ∧
    (process_followup_round system_instruction history q1 provider).1 =
        history ++ [⟨"user", q1⟩, ⟨"assistant", followupErrorReply⟩] ∧
    (process_followup_round system_instruction
        (process_followup_round system_instruction history q1 provider).1 q2
        provider).1 =
      history ++ [⟨"user", q1⟩, ⟨"assistant", followupErrorReply⟩,
        ⟨"user", q2⟩, ⟨"assistant", followupErrorReply⟩] := by
  have step : ∀ (h : List ChatMsg) (q : String),
      (process_followup_question system_instruction h q provider).1 =
          h ++ [⟨"user", q⟩] ∧
      FollowupEvent.response followupErrorReply ∈
        (process_followup_question system_instruction h q provider).2 := by
    intro h q
    obtain ⟨e, he⟩ := hfail (assembleConversationText system_instruction
      (add_user_message h q) q)
    simp only [process_followup_question, he]
    split <;> simp [add_user_message]
  have roundStep : ∀ (h : List ChatMsg) (q : String),
      (process_followup_round system_instruction h q provider).1 =
        h ++ [⟨"user", q⟩, ⟨"assistant", followupErrorReply⟩] := by
    intro h q
    obtain ⟨e, he⟩ := hfail (assembleConversationText system_instruction
      (add_user_message h q) q)
    have hne : followupErrorReply ≠ "" := by decide
    simp only [process_followup_round, process_followup_question, he]
    split <;>
      simp [List.foldl, add_user_message, handle_followup_after_user, hne]
  refine ⟨(step history q1).1, (step history q1).2, roundStep history q1, ?_⟩
  rw [roundStep history q1,
    roundStep (history ++ [ChatMsg.mk "user" q1,
      ChatMsg.mk "assistant" followupErrorReply]) q2]
  simp

/-- Witness for the amended C10 with an always-failing provider. -/
theorem C10_amended_witness :
    (process_followup_question "" [] "hi" (fun _ => Except.error "boom")).1 =
        [] ++ [⟨"user", "hi"⟩] ∧
    FollowupEvent.response followupErrorReply ∈
        (process_followup_question "" [] "hi"
          (fun _ => Except.error "boom")).2 ∧
    (process_followup_round "" [] "hi" (fun _ => Except.error "boom")).1 =
        [] ++ [⟨"user", "hi"⟩, ⟨"assistant", followupErrorReply⟩] ∧
    (process_followup_round ""
        (process_followup_round "" [] "hi" (fun _ => Except.error "boom")).1
        "again" (fun _ => Except.error "boom")).1 =
      [] ++ [⟨"user", "hi"⟩, ⟨"assistant", followupErrorReply⟩,
        ⟨"user", "again"⟩, ⟨"assistant", followupErrorReply⟩] :=
  C10_amended "" "hi" "again" [] (fun _ => Except.error "boom")
    (fun _ => ⟨"boom", rfl⟩)

end WriteBoost
